import Mathlib

/-
Verification of the core logic of `src/app.py` (Shibuya Re:balance Navi).

Modelling conventions for the shallow embedding:
* Python `float` values are modelled as real numbers (`ℝ`); Python `int`
  as `Int`; Python `str` as `String`; Python `list` as `List`;
  Python `Optional[T]` / a possibly-`None` session value as `Option T`.
* `math.sin`, `math.cos`, `math.atan2`, `math.sqrt`, `math.radians` are
  modelled by the corresponding real functions (`Real.sin`, `Real.cos`,
  an explicit `atan2` with the usual quadrant case split, `Real.sqrt`,
  degree-to-radian conversion).  `Real.sqrt` totalises `math.sqrt` by
  returning 0 on negative arguments; the lemma `haversine_a_mem_Icc`
  shows the haversine intermediate value always lies in `[0, 1]`, so the
  Python code never reaches the raising case and the totalisation is
  conservative.
* Streamlit's `st.session_state` is modelled as an explicit
  `SessionState` record; each user action (button press) is modelled as
  a pure function from session state to session state, together with a
  `Bool`/outcome flag recording whether an error message was shown.
* `pandas.DataFrame.sort_values(["score", "rating"], ascending=False)`
  sorts by several columns, for which pandas uses a stable lexicographic
  sort (`numpy.lexsort`); it is modelled as Mathlib's stable
  `List.insertionSort` with the descending lexicographic relation
  `keyGE` on the (score, rating) pair.
-/

namespace App

/-! ## Geo utilities (`haversine_km`, src/app.py lines 40-48) -/

/-- `math.radians`: degrees to radians. -/
noncomputable def radians (deg : ℝ) : ℝ := deg * (Real.pi / 180)

/-- `math.atan2 y x` with the usual quadrant conventions. -/
noncomputable def atan2 (y x : ℝ) : ℝ :=
  if 0 < x then Real.arctan (y / x)
  else if x < 0 then
    (if 0 ≤ y then Real.arctan (y / x) + Real.pi else Real.arctan (y / x) - Real.pi)
  else
    (if 0 < y then Real.pi / 2 else if y < 0 then -(Real.pi / 2) else 0)

/-- The intermediate value `a` of `haversine_km`:
`sin(dlat/2)**2 + cos(p1)*cos(p2)*sin(dlon/2)**2`. -/
noncomputable def haversine_a (lat1 lon1 lat2 lon2 : ℝ) : ℝ :=
  Real.sin (radians (lat2 - lat1) / 2) ^ 2 +
    Real.cos (radians lat1) * Real.cos (radians lat2) *
      Real.sin (radians (lon2 - lon1) / 2) ^ 2

/-- `haversine_km(lat1, lon1, lat2, lon2)`: great-circle distance with
Earth radius `R = 6371.0`, `c = 2 * atan2(sqrt(a), sqrt(1 - a))`, result `R * c`. -/
noncomputable def haversine_km (lat1 lon1 lat2 lon2 : ℝ) : ℝ :=
  6371.0 * (2 * atan2 (Real.sqrt (haversine_a lat1 lon1 lat2 lon2))
    (Real.sqrt (1 - haversine_a lat1 lon1 lat2 lon2)))

/-! ## Data model (`Restaurant`, src/app.py lines 51-87) -/

/-- The `Restaurant` dataclass. -/
structure Restaurant where
  id : String
  name : String
  area : String
  genre : List String
  price_yen : Int
  rating : ℝ
  smoking : String  -- "no" | "yes" | "separated"
  capacity : Int
  lat : ℝ
  lon : ℝ
  photo_url : String
  address : String
  «open» : String
  fee_yen : Int
  description : String

/-- A raw catalog record as passed to `Restaurant.from_dict`: every field
may be absent (`none`).  A present field carries a value of the expected
type (the `str()`/`int()`/`float()`/`list()` coercions in the source are
identities on such values). -/
structure RawRecord where
  id : Option String
  name : Option String
  area : Option String
  genre : Option (List String)
  price_yen : Option Int
  rating : Option ℝ
  smoking : Option String
  capacity : Option Int
  lat : Option ℝ
  lon : Option ℝ
  photo_url : Option String
  address : Option String
  «open» : Option String
  fee_yen : Option Int
  description : Option String

/-- `Restaurant.from_dict` (src/app.py lines 69-87): each `d.get(key, default)`
becomes `Option.getD` with the default written in the source. -/
def Restaurant.from_dict (d : RawRecord) : Restaurant where
  id := d.id.getD ""
  name := d.name.getD ""
  area := d.area.getD ""
  genre := d.genre.getD []
  price_yen := d.price_yen.getD 0
  rating := d.rating.getD 0.0
  smoking := d.smoking.getD "no"
  capacity := d.capacity.getD 0
  lat := d.lat.getD 0.0
  lon := d.lon.getD 0.0
  photo_url := d.photo_url.getD ""
  address := d.address.getD ""
  «open» := d.«open».getD ""
  fee_yen := d.fee_yen.getD 0
  description := d.description.getD ""

/-- The raw record with every field absent. -/
def emptyRaw : RawRecord :=
  ⟨none, none, none, none, none, none, none, none, none, none, none, none,
    none, none, none⟩

/-- `get_restaurant_by_id` (src/app.py lines 406-412).  `if not rid` is
Python truthiness on `Optional[str]`: both `None` and `""` are falsy. -/
def get_restaurant_by_id (restaurants : List Restaurant) (rid : Option String) :
    Option Restaurant :=
  match rid with
  | none => none
  | some s => if s = "" then none else restaurants.find? (fun r => r.id == s)

/-- The restaurant produced by `Restaurant.from_dict` on a record with
every field absent (its `id` is the empty string, `smoking` is `"no"`). -/
def blankRestaurant : Restaurant :=
  { id := "", name := "", area := "", genre := [], price_yen := 0, rating := 0,
    smoking := "no", capacity := 0, lat := 0, lon := 0, photo_url := "",
    address := "", «open» := "", fee_yen := 0, description := "" }

/-! ## Claim C2: defaults substituted by `Restaurant.from_dict` -/

/-- Claim C2 counterexample: on the record with every field absent,
`Restaurant.from_dict` sets the string field `smoking` to `"no"`, not to the
empty string, so "empty string for string fields" fails at `smoking`. -/
theorem from_dict_smoking_default_cex :
    emptyRaw.smoking = none ∧
      (Restaurant.from_dict emptyRaw).smoking = "no" ∧ ("no" : String) ≠ "" := by
  refine ⟨rfl, rfl, by decide⟩

/-- Claim C2 (amended): `Restaurant.from_dict` never fails on a record with
missing fields (it is a total function), and substitutes a fixed default for
every absent field: the empty string for the string fields `id`, `name`,
`area`, `photo_url`, `address`, `open`, `description`; the string `"no"`
(not the empty string) for `smoking`; `0` for the integer fields; `0.0` for
the float fields; the empty list for `genre`. -/
theorem from_dict_defaults (d : RawRecord) :
    (d.id = none → (Restaurant.from_dict d).id = "") ∧
    (d.name = none → (Restaurant.from_dict d).name = "") ∧
    (d.area = none → (Restaurant.from_dict d).area = "") ∧
    (d.genre = none → (Restaurant.from_dict d).genre = []) ∧
    (d.price_yen = none → (Restaurant.from_dict d).price_yen = 0) ∧
    (d.rating = none → (Restaurant.from_dict d).rating = 0.0) ∧
    (d.smoking = none → (Restaurant.from_dict d).smoking = "no") ∧
    (d.capacity = none → (Restaurant.from_dict d).capacity = 0) ∧
    (d.lat = none → (Restaurant.from_dict d).lat = 0.0) ∧
    (d.lon = none → (Restaurant.from_dict d).lon = 0.0) ∧
    (d.photo_url = none → (Restaurant.from_dict d).photo_url = "") ∧
    (d.address = none → (Restaurant.from_dict d).address = "") ∧
    (d.«open» = none → (Restaurant.from_dict d).«open» = "") ∧
    (d.fee_yen = none → (Restaurant.from_dict d).fee_yen = 0) ∧
    (d.description = none → (Restaurant.from_dict d).description = "") := by
  refine ⟨fun h => ?_, fun h => ?_, fun h => ?_, fun h => ?_, fun h => ?_,
    fun h => ?_, fun h => ?_, fun h => ?_, fun h => ?_, fun h => ?_,
    fun h => ?_, fun h => ?_, fun h => ?_, fun h => ?_, fun h => ?_⟩ <;>
    simp [Restaurant.from_dict, h]

/-- Claim C2 witness: the amended theorem applied to the all-absent record. -/
theorem from_dict_defaults_witness :
    (Restaurant.from_dict emptyRaw).id = "" ∧
    (Restaurant.from_dict emptyRaw).name = "" ∧
    (Restaurant.from_dict emptyRaw).area = "" ∧
    (Restaurant.from_dict emptyRaw).genre = [] ∧
    (Restaurant.from_dict emptyRaw).price_yen = 0 ∧
    (Restaurant.from_dict emptyRaw).rating = 0.0 ∧
    (Restaurant.from_dict emptyRaw).smoking = "no" ∧
    (Restaurant.from_dict emptyRaw).capacity = 0 ∧
    (Restaurant.from_dict emptyRaw).lat = 0.0 ∧
    (Restaurant.from_dict emptyRaw).lon = 0.0 ∧
    (Restaurant.from_dict emptyRaw).photo_url = "" ∧
    (Restaurant.from_dict emptyRaw).address = "" ∧
    (Restaurant.from_dict emptyRaw).«open» = "" ∧
    (Restaurant.from_dict emptyRaw).fee_yen = 0 ∧
    (Restaurant.from_dict emptyRaw).description = "" := by
  obtain ⟨h1, h2, h3, h4, h5, h6, h7, h8, h9, h10, h11, h12, h13, h14, h15⟩ :=
    from_dict_defaults emptyRaw
  exact ⟨h1 rfl, h2 rfl, h3 rfl, h4 rfl, h5 rfl, h6 rfl, h7 rfl, h8 rfl,
    h9 rfl, h10 rfl, h11 rfl, h12 rfl, h13 rfl, h14 rfl, h15 rfl⟩

/-! ## Claim C3: lookup round-trip -/

/-- Claim C3 counterexample: a venue whose `id` is the empty string (exactly
what `Restaurant.from_dict` produces when `id` is absent) does not round-trip:
`get_restaurant_by_id` treats the falsy id `""` as "nothing selected" and
returns `none`, not the venue itself. -/
theorem get_restaurant_by_id_roundtrip_cex :
    blankRestaurant ∈ [blankRestaurant] ∧
      get_restaurant_by_id [blankRestaurant] (some blankRestaurant.id) ≠
        some blankRestaurant := by
  constructor
  · exact List.mem_singleton.mpr rfl
  · simp [get_restaurant_by_id, blankRestaurant]

/-- Claim C3 (amended): on a catalog satisfying the spec's uniqueness
invariant (pairwise distinct ids) the round-trip holds for every venue whose
id is not the empty string: `get_restaurant_by_id restaurants (some v.id) = some v`.
(The empty-id exception is forced by the counterexample: `""` is falsy in
Python, so the lookup returns `None` for it.) -/
theorem get_restaurant_by_id_roundtrip (restaurants : List Restaurant)
    (huniq : (restaurants.map Restaurant.id).Nodup)
    (v : Restaurant) (hv : v ∈ restaurants) (hid : v.id ≠ "") :
    get_restaurant_by_id restaurants (some v.id) = some v := by
  simp only [get_restaurant_by_id]
  rw [if_neg hid]
  induction restaurants with
  | nil => cases hv
  | cons r rest ih =>
    rw [List.find?]
    rcases List.mem_cons.mp hv with hvr | hvrest
    · subst hvr
      simp
    · have hne : r.id ≠ v.id := by
        intro he
        have : v.id ∈ rest.map Restaurant.id := List.mem_map_of_mem _ hvrest
        rw [← he] at this
        exact (List.nodup_cons.mp huniq).1 this
      have hb : (r.id == v.id) = false := beq_eq_false_iff_ne.mpr hne
      rw [hb]
      exact ih (List.nodup_cons.mp huniq).2 hvrest

/-- A concrete venue with id `"a"`. -/
def restA : Restaurant := { blankRestaurant with id := "a", capacity := 4 }

/-- A concrete venue with id `"b"`. -/
def restB : Restaurant := { blankRestaurant with id := "b", capacity := 2 }

/-- Claim C3 witness: the amended round-trip applied to the concrete
two-venue catalog `[restA, restB]` at the venue `restB`. -/
theorem get_restaurant_by_id_roundtrip_witness :
    get_restaurant_by_id [restA, restB] (some restB.id) = some restB := by
  refine get_restaurant_by_id_roundtrip [restA, restB] ?_ restB ?_ ?_
  · simp [restA, restB, blankRestaurant]
  · simp
  · simp [restB, blankRestaurant]

/-! ## Geo lemmas for Claim C9 -/

/-- `atan2 y x` is non-negative whenever `y` is non-negative. -/
theorem atan2_nonneg {y x : ℝ} (hy : 0 ≤ y) : 0 ≤ atan2 y x := by
  unfold atan2
  split_ifs with hx hneg hy0 hpos
  all_goals try linarith [Real.neg_pi_div_two_lt_arctan (y / x), Real.pi_pos]
  have h0 : Real.arctan 0 ≤ Real.arctan (y / x) :=
    Real.arctan_strictMono.monotone (div_nonneg hy hx.le)
  simpa [Real.arctan_zero] using h0

/-- The haversine intermediate value is symmetric in the two points. -/
theorem haversine_a_symm (lat1 lon1 lat2 lon2 : ℝ) :
    haversine_a lat1 lon1 lat2 lon2 = haversine_a lat2 lon2 lat1 lon1 := by
  have key : ∀ u v : ℝ,
      Real.sin (radians (u - v) / 2) ^ 2 = Real.sin (radians (v - u) / 2) ^ 2 := by
    intro u v
    have h : radians (u - v) / 2 = -(radians (v - u) / 2) := by
      unfold radians; ring
    rw [h, Real.sin_neg, neg_sq]
  unfold haversine_a
  rw [key lat2 lat1, key lon2 lon1]
  ring

/-- The haversine intermediate value vanishes for coincident points. -/
theorem haversine_a_self (lat lon : ℝ) : haversine_a lat lon lat lon = 0 := by
  unfold haversine_a radians
  simp

/-- The haversine intermediate value always lies in `[0, 1]`; in particular
both `math.sqrt(a)` and `math.sqrt(1 - a)` in the source receive non-negative
arguments and never raise. -/
theorem haversine_a_mem_Icc (lat1 lon1 lat2 lon2 : ℝ) :
    haversine_a lat1 lon1 lat2 lon2 ∈ Set.Icc (0 : ℝ) 1 := by
  have hlat : radians (lat2 - lat1) = radians lat2 - radians lat1 := by
    unfold radians; ring
  unfold haversine_a
  rw [hlat]
  set u := radians lat1
  set v := radians lat2
  set D := radians (lon2 - lon1)
  have hP : Real.sin ((v - u) / 2) ^ 2 = 1 / 2 - Real.cos (v - u) / 2 := by
    have h := Real.sin_sq_eq_half_sub ((v - u) / 2)
    rwa [show 2 * ((v - u) / 2) = v - u by ring] at h
  have hR : Real.sin (D / 2) ^ 2 = 1 / 2 - Real.cos D / 2 := by
    have h := Real.sin_sq_eq_half_sub (D / 2)
    rwa [show 2 * (D / 2) = D by ring] at h
  have hC : Real.cos u * Real.cos v =
      (Real.cos (u + v) + Real.cos (v - u)) / 2 := by
    rw [Real.cos_add, Real.cos_sub]
    ring
  rw [hP, hR, hC]
  have hP1 := Real.neg_one_le_cos (v - u)
  have hP2 := Real.cos_le_one (v - u)
  have hQ1 := Real.neg_one_le_cos (u + v)
  have hQ2 := Real.cos_le_one (u + v)
  have hR1 := Real.neg_one_le_cos D
  have hR2 := Real.cos_le_one D
  constructor
  · nlinarith [mul_nonneg (by linarith : (0:ℝ) ≤ 1 - Real.cos (v - u))
        (by linarith : (0:ℝ) ≤ 1 + Real.cos D),
      mul_nonneg (by linarith : (0:ℝ) ≤ 1 + Real.cos (u + v))
        (by linarith : (0:ℝ) ≤ 1 - Real.cos D)]
  · nlinarith [mul_nonneg (by linarith : (0:ℝ) ≤ 1 + Real.cos (v - u))
        (by linarith : (0:ℝ) ≤ 1 + Real.cos D),
      mul_nonneg (by linarith : (0:ℝ) ≤ 1 - Real.cos (u + v))
        (by linarith : (0:ℝ) ≤ 1 - Real.cos D)]

/-- Claim C9: `haversine_km` is symmetric, vanishes on coincident points, and
is always non-negative.  (Over the real-number model every value is finite;
`haversine_a_mem_Icc` additionally shows the two square roots in the source
receive arguments in `[0, 1]`, so no error path is ever taken.) -/
theorem haversine_km_props (lat1 lon1 lat2 lon2 : ℝ) :
    haversine_km lat1 lon1 lat2 lon2 = haversine_km lat2 lon2 lat1 lon1 ∧
    haversine_km lat1 lon1 lat1 lon1 = 0 ∧
    0 ≤ haversine_km lat1 lon1 lat2 lon2 := by
  refine ⟨?_, ?_, ?_⟩
  · unfold haversine_km
    rw [haversine_a_symm]
  · unfold haversine_km
    rw [haversine_a_self]
    norm_num [atan2, Real.arctan_zero]
  · have h := atan2_nonneg
      (x := Real.sqrt (1 - haversine_a lat1 lon1 lat2 lon2))
      (Real.sqrt_nonneg (haversine_a lat1 lon1 lat2 lon2))
    unfold haversine_km
    nlinarith [h]

/-! ## Scoring (Claim C5) -/

/-- The score formula from src/app.py line 262:
`score = (r.rating * 2.0) - (dist_km * 1.2)`. -/
noncomputable def score (rating dist_km : ℝ) : ℝ := rating * 2.0 - dist_km * 1.2

/-! ## Search pipeline (`filter_and_rank`, src/app.py lines 241-285) -/

/-- One row of the result DataFrame built in `filter_and_rank`
(src/app.py lines 264-280). -/
structure Row where
  id : String
  name : String
  rating : ℝ
  price_yen : Int
  smoking : String
  capacity : Int
  lat : ℝ
  lon : ℝ
  distance_km : ℝ
  fee_yen : Int
  genre : String
  area : String
  score : ℝ

/-- The eligibility filter of `filter_and_rank` (src/app.py lines 249-257):
the two `continue` statements for capacity and smoking, in source order. -/
def passes_filter (people : Int) (smoking : String) (r : Restaurant) : Bool :=
  if r.capacity < people then false
  else if smoking ≠ "either" then
    if smoking = "no" ∧ r.smoking ≠ "no" then false
    else if smoking = "yes" ∧ r.smoking = "no" then false
    else true
  else true

/-- The row built for a surviving venue (src/app.py lines 259-280). -/
noncomputable def mkRow (user_lat user_lon : ℝ) (r : Restaurant) : Row :=
  let dist_km := haversine_km user_lat user_lon r.lat r.lon
  { id := r.id
    name := r.name
    rating := r.rating
    price_yen := r.price_yen
    smoking := r.smoking
    capacity := r.capacity
    lat := r.lat
    lon := r.lon
    distance_km := dist_km
    fee_yen := r.fee_yen
    genre := String.intercalate "・" r.genre
    area := r.area
    score := score r.rating dist_km }

/-- The descending lexicographic (score, rating) relation used by
`df.sort_values(["score", "rating"], ascending=False)`: `keyGE a b` holds
when row `a` may come no later than row `b` in the sorted output. -/
def keyGE (a b : Row) : Prop :=
  b.score < a.score ∨ (a.score = b.score ∧ b.rating ≤ a.rating)

noncomputable instance : DecidableRel keyGE := fun a b => by
  unfold keyGE; infer_instance

instance : IsTotal Row keyGE where
  total a b := by
    unfold keyGE
    rcases lt_trichotomy a.score b.score with h | h | h
    · rcases le_total a.rating b.rating with hr | hr
      · exact Or.inr (Or.inl h)
      · exact Or.inr (Or.inl h)
    · rcases le_total a.rating b.rating with hr | hr
      · exact Or.inr (Or.inr ⟨h.symm, hr⟩)
      · exact Or.inl (Or.inr ⟨h, hr⟩)
    · exact Or.inl (Or.inl h)

instance : IsTrans Row keyGE where
  trans a b c hab hbc := by
    unfold keyGE at *
    rcases hab with h1 | h1 <;> rcases hbc with h2 | h2
    · exact Or.inl (lt_trans h2 h1)
    · exact Or.inl (by rw [← h2.1]; exact h1)
    · exact Or.inl (by rw [h1.1]; exact h2)
    · exact Or.inr ⟨h1.1.trans h2.1, le_trans h2.2 h1.2⟩

/-- `filter_and_rank` (src/app.py lines 241-285): build a row for every
venue passing the filter, in catalog order, then sort by (score, rating)
descending.  `sort_values` on several columns is pandas' stable
lexicographic sort, modelled by the stable `List.insertionSort`. -/
noncomputable def filter_and_rank (restaurants : List Restaurant)
    (people : Int) (smoking : String) (user_lat user_lon : ℝ) : List Row :=
  List.insertionSort keyGE
    ((restaurants.filter (passes_filter people smoking)).map
      (mkRow user_lat user_lon))

/-- Inserting into a list does not change the order of the elements picked
out by a predicate that only selects rows of one (score, rating) class. -/
theorem filter_orderedInsert (p : Row → Bool)
    (hp : ∀ a b, p a = true → p b = true → keyGE a b) (x : Row) :
    ∀ L : List Row, (L.orderedInsert keyGE x).filter p = (x :: L).filter p := by
  intro L
  induction L with
  | nil => rfl
  | cons y ys ih =>
    rw [List.orderedInsert]
    by_cases h : keyGE x y
    · rw [if_pos h]
    · rw [if_neg h]
      by_cases px : p x = true
      · by_cases py : p y = true
        · exact absurd (hp x y px py) h
        · simp only [List.filter_cons, px, py, if_true, if_false,
            Bool.false_eq_true, ih]
      · by_cases py : p y = true <;>
          simp only [List.filter_cons, px, py, if_true, if_false,
            Bool.false_eq_true, ih]

/-- Stability of the sort: sorting does not change the order of the rows in
one (score, rating) class. -/
theorem filter_insertionSort (p : Row → Bool)
    (hp : ∀ a b, p a = true → p b = true → keyGE a b) :
    ∀ L : List Row, (List.insertionSort keyGE L).filter p = L.filter p := by
  intro L
  induction L with
  | nil => rfl
  | cons x xs ih =>
    rw [List.insertionSort, filter_orderedInsert p hp x]
    simp only [List.filter_cons, ih]

/-- Claim C1: the pipeline output is sorted descending primarily by score and
secondarily by rating (`keyGE` relates every earlier row to every later one),
and the tie-break is stable: for every fixed (score, rating) value, the rows
carrying that value appear in exactly the order of the pre-sort row list,
which is in catalog order. -/
theorem filter_and_rank_sorted_stable (restaurants : List Restaurant)
    (people : Int) (smoking : String) (user_lat user_lon : ℝ) :
    List.Sorted keyGE
        (filter_and_rank restaurants people smoking user_lat user_lon) ∧
    ∀ s t : ℝ,
      (filter_and_rank restaurants people smoking user_lat user_lon).filter
          (fun row => decide (row.score = s ∧ row.rating = t)) =
        ((restaurants.filter (passes_filter people smoking)).map
            (mkRow user_lat user_lon)).filter
          (fun row => decide (row.score = s ∧ row.rating = t)) := by
  constructor
  · exact List.sorted_insertionSort keyGE _
  · intro s t
    apply filter_insertionSort
    intro a b ha hb
    have ha' : a.score = s ∧ a.rating = t := of_decide_eq_true ha
    have hb' : b.score = s ∧ b.rating = t := of_decide_eq_true hb
    exact Or.inr ⟨ha'.1.trans hb'.1.symm, le_of_eq (hb'.2.trans ha'.2.symm)⟩

/-- The filter of `filter_and_rank`, characterised: a venue survives exactly
when its capacity suffices and it is smoking-eligible. -/
theorem passes_filter_iff (people : Int) (smoking : String) (r : Restaurant) :
    passes_filter people smoking r = true ↔
      people ≤ r.capacity ∧ (smoking = "no" → r.smoking = "no") ∧
        (smoking = "yes" → r.smoking ≠ "no") := by
  unfold passes_filter
  split_ifs with h1 h2 h3 h4
  · constructor
    · intro hh; exact absurd hh (by simp)
    · intro hh; omega
  · constructor
    · intro hh; exact absurd hh (by simp)
    · intro hh; exact absurd (hh.2.1 h3.1) h3.2
  · constructor
    · intro hh; exact absurd hh (by simp)
    · intro hh; exact absurd h4.2 (hh.2.2 h4.1)
  · constructor
    · intro _
      refine ⟨by omega, ?_, ?_⟩
      · intro hs
        by_contra hne
        exact h3 ⟨hs, hne⟩
      · intro hs
        by_contra hne
        exact h4 ⟨hs, hne⟩
    · intro _; rfl
  · rw [not_not] at h2
    subst h2
    constructor
    · intro _
      refine ⟨by omega, ?_, ?_⟩ <;> intro hs <;> simp at hs
    · intro _; rfl

/-- Claim C4: the pipeline output never contains a row whose capacity is
below the party size; with criteria "no" every output row's venue is
non-smoking, with criteria "yes" no output row's venue is non-smoking, and
with criteria "either" no venue is excluded on smoking grounds (every venue
with sufficient capacity appears in the output). -/
theorem filter_and_rank_capacity_smoking (restaurants : List Restaurant)
    (people : Int) (smoking : String) (user_lat user_lon : ℝ) :
    (∀ row ∈ filter_and_rank restaurants people smoking user_lat user_lon,
        people ≤ row.capacity ∧
        (smoking = "no" → row.smoking = "no") ∧
        (smoking = "yes" → row.smoking ≠ "no")) ∧
    (smoking = "either" → ∀ r ∈ restaurants, people ≤ r.capacity →
        mkRow user_lat user_lon r ∈
          filter_and_rank restaurants people smoking user_lat user_lon) := by
  constructor
  · intro row hrow
    rw [filter_and_rank, List.mem_insertionSort] at hrow
    obtain ⟨r, hr, hrr⟩ := List.mem_map.mp hrow
    obtain ⟨hmem, hpass⟩ := List.mem_filter.mp hr
    have hprops := (passes_filter_iff people smoking r).mp hpass
    subst hrr
    simpa [mkRow] using hprops
  · intro he r hr hcap
    rw [filter_and_rank, List.mem_insertionSort]
    refine List.mem_map_of_mem _ (List.mem_filter.mpr ⟨hr, ?_⟩)
    rw [passes_filter_iff]
    refine ⟨hcap, ?_, ?_⟩ <;> intro hs <;> rw [he] at hs <;> simp at hs

/-- Claim C4 witness: the theorem applied to a one-venue catalog with
capacity 4, party size 2 and smoking criteria "either". -/
theorem filter_and_rank_capacity_smoking_witness :
    (2 : Int) ≤ (mkRow 0 0 restA).capacity ∧
      mkRow 0 0 restA ∈ filter_and_rank [restA] 2 "either" 0 0 := by
  have h := filter_and_rank_capacity_smoking [restA] 2 "either" 0 0
  have hmem : mkRow 0 0 restA ∈ filter_and_rank [restA] 2 "either" 0 0 :=
    h.2 rfl restA (List.mem_singleton.mpr rfl)
      (by simp [restA, blankRestaurant])
  exact ⟨(h.1 _ hmem).1, hmem⟩

/-- Claim C8: the pipeline on an empty catalog returns the empty list, and on
any catalog in which no venue passes the filter it also returns the empty
list; both are ordinary values, no error is raised (the function is total). -/
theorem filter_and_rank_empty (people : Int) (smoking : String)
    (user_lat user_lon : ℝ) :
    filter_and_rank [] people smoking user_lat user_lon = [] ∧
    ∀ restaurants : List Restaurant,
      (∀ r ∈ restaurants, passes_filter people smoking r = false) →
      filter_and_rank restaurants people smoking user_lat user_lon = [] := by
  constructor
  · rfl
  · intro restaurants h
    rw [filter_and_rank]
    have hnil : restaurants.filter (passes_filter people smoking) = [] := by
      rw [List.filter_eq_nil_iff]
      intro a ha
      simp [h a ha]
    rw [hnil]
    rfl

/-- Claim C8 witness: the theorem applied to a catalog whose only venue
(capacity 2) fails the party-size-5 filter. -/
theorem filter_and_rank_empty_witness :
    filter_and_rank [restB] 5 "either" 0 0 = [] := by
  refine (filter_and_rank_empty 5 "either" 0 0).2 [restB] ?_
  intro r hr
  rw [List.mem_singleton] at hr
  subst hr
  rfl

/-- Claim C5: the score of every output row equals
`rating * 2.0 - distance_km * 1.2`, and the score formula is strictly
increasing in rating (distance fixed) and strictly decreasing in distance
(rating fixed). -/
theorem score_formula_monotone (r : Restaurant) (user_lat user_lon : ℝ) :
    (mkRow user_lat user_lon r).score =
      r.rating * 2.0 - haversine_km user_lat user_lon r.lat r.lon * 1.2 ∧
    (∀ ra1 ra2 d : ℝ, ra1 < ra2 → score ra1 d < score ra2 d) ∧
    (∀ ra d1 d2 : ℝ, d1 < d2 → score ra d2 < score ra d1) := by
  refine ⟨rfl, ?_, ?_⟩
  · intro ra1 ra2 d h
    unfold score
    have h2 : (2.0 : ℝ) = 2 := by norm_num
    rw [h2]
    linarith
  · intro ra d1 d2 h
    unfold score
    have h12 : (0 : ℝ) < 1.2 := by norm_num
    nlinarith

/-- Claim C5 witness: strict monotonicity at concrete arguments. -/
theorem score_formula_monotone_witness :
    score 1 0 < score 2 0 ∧ score 0 1 < score 0 0 := by
  have h := score_formula_monotone blankRestaurant 0 0
  exact ⟨h.2.1 1 2 0 (by norm_num), h.2.2 0 0 1 (by norm_num)⟩

/-! ## Navigation state machine (`st.session_state`, src/app.py) -/

/-- The session state initialised by `init_state` (src/app.py lines 106-115). -/
structure SessionState where
  page : String           -- "search" | "results" | "detail" | "done"
  people : Option Int     -- None means not yet chosen
  smoking : String        -- "no" | "yes" | "separated" | "either"
  arrival_min : Int
  selected_restaurant_id : Option String
  view_mode : String      -- "list" | "map"
  last_results : List String
  user_lat : ℝ
  user_lon : ℝ

/-- The defaults set by `init_state` (src/app.py lines 106-115), with the
demo coordinate `DEFAULT_LAT`/`DEFAULT_LON`. -/
def init_state : SessionState where
  page := "search"
  people := none
  smoking := "either"
  arrival_min := 0
  selected_restaurant_id := none
  view_mode := "list"
  last_results := []
  user_lat := 35.6580
  user_lon := 139.7016

/-- `goto` (src/app.py lines 118-119). -/
def goto (page : String) (s : SessionState) : SessionState := { s with page := page }

/-- The search-button handler at the bottom of `page_search`
(src/app.py lines 234-238): if `people` is `None` an error is shown and the
handler returns without navigating; otherwise `goto("results")`.  The `Bool`
records whether the validation error was shown. -/
def search_action (s : SessionState) : SessionState × Bool :=
  if s.people = none then (s, true)
  else (goto "results" s, false)

/-- The guard in `main` (src/app.py lines 517-521): landing on the results
page with `people` still `None` shows an error and goes back to `search`. -/
def results_people_guard (s : SessionState) : SessionState × Bool :=
  if s.people = none then (goto "search" s, true)
  else (s, false)

/-- Claim C6: the search → results transition is rejected while
`people` is unset — the state is returned unchanged (so the page stays
`"search"`) and the validation signal is raised; the transition to
`"results"` happens exactly when `people` is set.  The `main` guard
additionally sends a results page reached with `people` unset back to
`"search"` with the same signal. -/
theorem search_requires_people (s : SessionState) :
    (s.people = none → search_action s = (s, true)) ∧
    (∀ n : Int, s.people = some n →
      search_action s = ({ s with page := "results" }, false)) ∧
    (s.people = none → results_people_guard s = ({ s with page := "search" }, true)) := by
  refine ⟨fun h => ?_, fun n h => ?_, fun h => ?_⟩
  · rw [search_action, if_pos h]
  · rw [search_action, if_neg (by rw [h]; exact Option.some_ne_none n)]
    rfl
  · rw [results_people_guard, if_pos h]
    rfl

/-- Claim C6 witness: the theorem applied to the initial state (people unset)
and to the initial state with a party of three. -/
theorem search_requires_people_witness :
    search_action init_state = (init_state, true) ∧
    search_action { init_state with people := some 3 } =
      ({ init_state with people := some 3, page := "results" }, false) := by
  refine ⟨(search_requires_people init_state).1 rfl, ?_⟩
  exact (search_requires_people { init_state with people := some 3 }).2.1 3 rfl

/-- What a detail/done page renders: either a "not found" error with the page
offered by its back button, or the resolved restaurant. -/
inductive PageOutcome where
  | notFound (back : String)
  | found (r : Restaurant)

/-- `page_detail` (src/app.py lines 415-421), reduced to its resolution
behaviour: an unresolved selected id shows 「店舗が見つかりません。」 and offers a
button back to `"results"`; the session state itself is left untouched. -/
def page_detail (restaurants : List Restaurant) (s : SessionState) :
    PageOutcome × SessionState :=
  match get_restaurant_by_id restaurants s.selected_restaurant_id with
  | none => (PageOutcome.notFound "results", s)
  | some r => (PageOutcome.found r, s)

/-- `page_done` (src/app.py lines 463-469): an unresolved selected id shows
「予約対象が見つかりません。」 and offers a button back to `"search"`; the session
state itself is left untouched. -/
def page_done (restaurants : List Restaurant) (s : SessionState) :
    PageOutcome × SessionState :=
  match get_restaurant_by_id restaurants s.selected_restaurant_id with
  | none => (PageOutcome.notFound "search", s)
  | some r => (PageOutcome.found r, s)

/-- Claim C7: entering `detail` or `done` with a selected-venue id that does
not resolve never crashes (both handlers are total functions): `detail`
reports not-found and offers the `"results"` page, `done` reports not-found
and offers the `"search"` page, and in both cases the session state is
returned unchanged. -/
theorem detail_done_not_found (restaurants : List Restaurant) (s : SessionState)
    (h : get_restaurant_by_id restaurants s.selected_restaurant_id = none) :
    page_detail restaurants s = (PageOutcome.notFound "results", s) ∧
    page_done restaurants s = (PageOutcome.notFound "search", s) := by
  rw [page_detail, page_done, h]
  exact ⟨rfl, rfl⟩

/-- Claim C7 witness: the stale id `"x"` against the empty catalog. -/
theorem detail_done_not_found_witness :
    page_detail [] { init_state with selected_restaurant_id := some "x" } =
      (PageOutcome.notFound "results",
        { init_state with selected_restaurant_id := some "x" }) ∧
    page_done [] { init_state with selected_restaurant_id := some "x" } =
      (PageOutcome.notFound "search",
        { init_state with selected_restaurant_id := some "x" }) :=
  detail_done_not_found [] { init_state with selected_restaurant_id := some "x" } rfl

/-- The quick-reserve button on a result card (src/app.py lines 333-336):
first `st.session_state.selected_restaurant_id = row["id"]`, then
`goto("done")`, both in the same button handler. -/
def quick_reserve (rid : String) (s : SessionState) : SessionState :=
  goto "done" { s with selected_restaurant_id := some rid }

/-- Claim C10: from the results page the quick-reserve action moves directly
to `"done"` — not `"detail"` — with the selected venue id set to the card's
id, and every other session field unchanged. -/
theorem quick_reserve_direct (s : SessionState) (rid : String)
    (_hpage : s.page = "results") :
    (quick_reserve rid s).page = "done" ∧
    (quick_reserve rid s).page ≠ "detail" ∧
    (quick_reserve rid s).selected_restaurant_id = some rid ∧
    (quick_reserve rid s).people = s.people ∧
    (quick_reserve rid s).smoking = s.smoking ∧
    (quick_reserve rid s).arrival_min = s.arrival_min ∧
    (quick_reserve rid s).view_mode = s.view_mode ∧
    (quick_reserve rid s).last_results = s.last_results ∧
    (quick_reserve rid s).user_lat = s.user_lat ∧
    (quick_reserve rid s).user_lon = s.user_lon := by
  refine ⟨rfl, by simp [quick_reserve, goto], rfl, rfl, rfl, rfl, rfl, rfl, rfl, rfl⟩

/-- Claim C10 witness: quick-reserving venue `"b"` from a results page. -/
theorem quick_reserve_direct_witness :
    (quick_reserve "b" { init_state with page := "results" }).page = "done" ∧
    (quick_reserve "b" { init_state with page := "results" }).selected_restaurant_id =
      some "b" := by
  have h := quick_reserve_direct { init_state with page := "results" } "b" rfl
  exact ⟨h.1, h.2.2.1⟩

end App
